import Mathlib

/-!
Shallow embedding of the GymSage photo-analyzer service
(`src/analyzer/main.py`) and proofs of the specification claims.

Modelling conventions:
* Python floats are modelled as exact reals (`ℝ`) for computed distances
  and as rationals (`ℚ`) for landmark coordinates coming from the pose
  model, so that concrete inputs can be evaluated.
* Python `dict`s built by sequential insertion of distinct keys are
  modelled as association lists (`List (String × ℝ)`), looked up with
  `List.lookup`.
* The external effects of the endpoint (HTTP fetch of `image_url`,
  base64 decode of `image_data`, the MediaPipe `pose.process` call) are
  parameters of the model (`Env`): each is a function returning
  `Except String _`, where `Except.error e` stands for a raised Python
  exception whose `str(e)` is `e`.
* Python truthiness of an `Optional[str]` field (`if request.image_url:`)
  is `false` exactly on `None` and the empty string.
-/

namespace GymSage

/-- A pose landmark as produced by the external MediaPipe model:
normalized coordinates and a visibility score (`spec.md` §3). -/
structure Landmark where
  x : ℚ
  y : ℚ
  z : ℚ
  visibility : ℚ
deriving Repr, DecidableEq

/-- `calculate_distance` (main.py lines 62–64):
`np.sqrt((p1[0]-p2[0])**2 + (p1[1]-p2[1])**2)`.
Python floats are modelled as exact reals, so this is noncomputable;
all structural data around it stays computable. -/
noncomputable def calculate_distance (point1 point2 : ℝ × ℝ) : ℝ :=
  Real.sqrt ((point1.1 - point2.1) ^ 2 + (point1.2 - point2.2) ^ 2)

/-- Python `int(...)` applied to a rational: truncation toward zero
(floor for nonnegative arguments, ceiling for negative ones). -/
def truncToInt (q : ℚ) : ℤ :=
  if 0 ≤ q then ⌊q⌋ else ⌈q⌉

/-- Pixel coordinates of one landmark (main.py lines 78–81):
`x = int(landmark.x * image_width)`, `y = int(landmark.y * image_height)`. -/
def pixelPoint (lm : Landmark) (image_width image_height : ℤ) : ℤ × ℤ :=
  (truncToInt (lm.x * image_width), truncToInt (lm.y * image_height))

/-- Cast an integer pixel point to the real plane (the tuple handed to
`calculate_distance`). -/
def toRealPt (p : ℤ × ℤ) : ℝ × ℝ :=
  ((p.1 : ℝ), (p.2 : ℝ))

/-- The pixel-coordinate dictionary `points` (main.py lines 77–81):
`points[idx] = (int(landmark.x * image_width), int(landmark.y * image_height))`
for each enumerated landmark; `none` when `idx` is out of range
(`idx in points` fails). -/
def pointsOf (lms : List Landmark) (image_width image_height : ℤ) :
    ℕ → Option (ℤ × ℤ) :=
  fun idx => (lms.get? idx).map (fun lm => pixelPoint lm image_width image_height)

/-- One conditional measurement entry (main.py lines 100–137): when both
endpoints are in `points`, the named Euclidean pixel distance is added
to the dictionary, otherwise nothing is. -/
noncomputable def distEntry (name : String) (a b : Option (ℤ × ℤ)) :
    List (String × ℝ) :=
  match a, b with
  | some p, some q => [(name, calculate_distance (toRealPt p) (toRealPt q))]
  | _, _ => []

/-- The seven conditional distance entries of
`calculate_body_measurements` (main.py lines 98–137), in insertion
order, as a function of the `points` dictionary. -/
noncomputable def baseMeasurements (points : ℕ → Option (ℤ × ℤ)) :
    List (String × ℝ) :=
  distEntry "shoulder_width" (points 11) (points 12)
  ++ (distEntry "hip_width" (points 23) (points 24)
  ++ (distEntry "left_arm_length" (points 11) (points 15)
  ++ (distEntry "right_arm_length" (points 12) (points 16)
  ++ (distEntry "left_leg_length" (points 23) (points 27)
  ++ (distEntry "right_leg_length" (points 24) (points 28)
  ++ distEntry "torso_length" (points 11) (points 23))))))

/-- The arm symmetry-ratio insertion (main.py lines 140–143): the ratio
is added exactly when both one-sided arm measurements are already in
the dictionary, with value left / right. -/
noncomputable def addArmRatio (m : List (String × ℝ)) : List (String × ℝ) :=
  match m.lookup "left_arm_length", m.lookup "right_arm_length" with
  | some l, some r => m ++ [("arm_symmetry_ratio", l / r)]
  | _, _ => m

/-- The leg symmetry-ratio insertion (main.py lines 145–148). -/
noncomputable def addLegRatio (m : List (String × ℝ)) : List (String × ℝ) :=
  match m.lookup "left_leg_length", m.lookup "right_leg_length" with
  | some l, some r => m ++ [("leg_symmetry_ratio", l / r)]
  | _, _ => m

/-- The two symmetry-ratio insertions of `calculate_body_measurements`
(main.py lines 139–148), in program order. -/
noncomputable def withRatios (m : List (String × ℝ)) : List (String × ℝ) :=
  addLegRatio (addArmRatio m)

/-- `calculate_body_measurements` (main.py lines 66–153).  The Python
`dict` built by sequential insertion of pairwise-distinct keys is an
association list; `'k' in measurements` is `List.lookup`.  The
`try/except` around the block is not modelled: with NumPy float
semantics none of its statements raises (float division by zero yields
`inf`, not an exception), so the handler is dead code. -/
noncomputable def calculate_body_measurements
    (landmarks : Option (List Landmark)) (image_width image_height : ℤ) :
    List (String × ℝ) :=
  match landmarks with
  | none => []
  | some lms =>
    withRatios (baseMeasurements (pointsOf lms image_width image_height))

/-- One element of the list returned by `extract_keypoints`
(main.py lines 163–169). -/
structure Keypoint where
  x : ℚ
  y : ℚ
  z : ℚ
  visibility : ℚ
  landmark_id : ℕ
deriving Repr, DecidableEq

/-- `extract_keypoints` (main.py lines 155–171). -/
def extract_keypoints (landmarks : Option (List Landmark)) : List Keypoint :=
  match landmarks with
  | none => []
  | some lms =>
    lms.enum.map (fun p => ⟨p.2.x, p.2.y, p.2.z, p.2.visibility, p.1⟩)

/-- `np.mean` over a list of floats modelled as exact reals:
sum divided by length. -/
noncomputable def npMean (l : List ℝ) : ℝ :=
  l.sum / (l.length : ℝ)

/-- `PhotoAnalysisRequest` (main.py lines 44–48). -/
structure PhotoAnalysisRequest where
  photo_id : String
  view : String
  image_data : Option String := none
  image_url : Option String := none

/-- The `analysis` payload assembled on success
(main.py lines 239–249). -/
structure Analysis where
  measurements : List (String × ℝ)
  keypoints : List Keypoint
  confidence : ℝ
  view : String
  image_width : ℤ
  image_height : ℤ
  landmarks_detected : ℕ

/-- `AnalysisResult` (main.py lines 50–54). -/
structure AnalysisResult where
  photo_id : String
  success : Bool
  analysis : Option Analysis := none
  error : Option String := none

/-- Outcome of one call to the JSON endpoint: either a raised
`HTTPException(status_code, detail)` or a JSON `AnalysisResult` body. -/
inductive EndpointResult
  | httpError (status : ℕ) (detail : String)
  | response (result : AnalysisResult)

/-- A decoded image; the only attributes the handler reads are the
pixel dimensions from `image_rgb.shape`. -/
structure DecodedImage where
  width : ℤ
  height : ℤ
deriving Repr, DecidableEq

/-- The handler's external effects.  `Except.error e` models a raised
Python exception with `str(e) = e`: `fetchUrl` is `requests.get` +
`Image.open` + `cvtColor` on `image_url` (main.py lines 201–204),
`decodeData` is `base64.b64decode` + `Image.open` + `cvtColor` on
`image_data` (lines 210–212), and `poseProcess` is `pose.process`
and the rest of the pipeline (lines 219–220), returning the optional
`results.pose_landmarks`. -/
structure Env where
  fetchUrl : String → Except String DecodedImage
  decodeData : String → Except String DecodedImage
  poseProcess : DecodedImage → Except String (Option (List Landmark))

/-- Python truthiness of an `Optional[str]`: `None` and `""` are falsy
(`if request.image_url:` / `elif request.image_data:`). -/
def isTruthy : Option String → Bool
  | none => false
  | some s => s != ""

/-- The body of `analyze_photo` after an image has been loaded
(main.py lines 218–265): run the pose model, report the no-pose case
as a structured failure, otherwise assemble the analysis; the outer
`except Exception` turns any non-HTTP exception into a structured
failure whose message is `"Analysis failed: " + str(e)`
(lines 259–265). -/
noncomputable def analyzeLoaded (env : Env) (photo_id view : String)
    (img : DecodedImage) : EndpointResult :=
  match env.poseProcess img with
  | .error e =>
      .response { photo_id := photo_id, success := false,
                  error := some ("Analysis failed: " ++ e) }
  | .ok none =>
      .response { photo_id := photo_id, success := false,
                  error := some "No pose detected in image. Please ensure the person is clearly visible." }
  | .ok (some lms) =>
      let measurements :=
        calculate_body_measurements (some lms) img.width img.height
      let keypoints := extract_keypoints (some lms)
      let confidence := npMean (keypoints.map (fun kp => (kp.visibility : ℝ)))
      .response { photo_id := photo_id, success := true,
                  analysis := some
                    { measurements := measurements,
                      keypoints := keypoints,
                      confidence := confidence,
                      view := view,
                      image_width := img.width,
                      image_height := img.height,
                      landmarks_detected := keypoints.length } }

/-- `analyze_photo` (main.py lines 192–265).  The `if request.image_url:`
branch is tried first, then `elif request.image_data:`, else the 400
"No image data or URL provided"; failures of the two loaders raise the
400 `HTTPException`s of lines 206 and 214, which the outer handler
re-raises unchanged (line 257–258). -/
noncomputable def analyze_photo (env : Env)
    (request : PhotoAnalysisRequest) : EndpointResult :=
  if isTruthy request.image_url then
    match env.fetchUrl (request.image_url.getD "") with
    | .error e => .httpError 400 ("Failed to fetch image from URL: " ++ e)
    | .ok img => analyzeLoaded env request.photo_id request.view img
  else if isTruthy request.image_data then
    match env.decodeData (request.image_data.getD "") with
    | .error e => .httpError 400 ("Invalid image data: " ++ e)
    | .ok img => analyzeLoaded env request.photo_id request.view img
  else
    .httpError 400 "No image data or URL provided"

/-- Projection used in theorems: the `image_dimensions.width` echoed in
a successful response, identifying which decoded image was analyzed. -/
def resultWidth : EndpointResult → Option ℤ
  | .response r => r.analysis.map (fun a => a.image_width)
  | .httpError _ _ => none

/-- Projection used in theorems: the `error` field of a JSON response
body (`none` for an HTTP error). -/
def resultError : EndpointResult → Option String
  | .response r => r.error
  | .httpError _ _ => none

/-- Projection used in theorems: the `confidence` echoed in a
successful response. -/
def resultConfidence : EndpointResult → Option ℝ
  | .response r => r.analysis.map (fun a => a.confidence)
  | .httpError _ _ => none

/-- The fixed vocabulary of measurement names (spec.md §3, §8 and the
`/measurements/guide` document, main.py lines 326–336). -/
def measurementVocab : List String :=
  ["shoulder_width", "hip_width", "left_arm_length", "right_arm_length",
   "left_leg_length", "right_leg_length", "torso_length",
   "arm_symmetry_ratio", "leg_symmetry_ratio"]

/-- The landmark-index pair used for each distance measurement
(main.py lines 85–137). -/
def measurementPairs : List (String × ℕ × ℕ) :=
  [("shoulder_width", 11, 12), ("hip_width", 23, 24),
   ("left_arm_length", 11, 15), ("right_arm_length", 12, 16),
   ("left_leg_length", 23, 27), ("right_leg_length", 24, 28),
   ("torso_length", 11, 23)]

/-- A concrete landmark with full visibility, used in witnesses. -/
def lm0 : Landmark := ⟨0, 0, 0, 1⟩

/-- Request supplying both `image_data` and `image_url`. -/
def reqC1 : PhotoAnalysisRequest :=
  { photo_id := "p1", view := "front",
    image_data := some "QUJD", image_url := some "http://img.example/a.jpg" }

/-- Environment in which the URL decodes to a 1-pixel-wide image and the
base64 bytes to a 2-pixel-wide image, so the echoed `image_dimensions`
identify which input was analyzed. -/
def envC1 : Env :=
  { fetchUrl := fun _ => .ok ⟨1, 7⟩,
    decodeData := fun _ => .ok ⟨2, 9⟩,
    poseProcess := fun _ => .ok (some [lm0]) }

/-- Request supplying only `image_data`. -/
def reqC2 : PhotoAnalysisRequest :=
  { photo_id := "p2", view := "front",
    image_data := some "QUJD", image_url := none }

/-- Environment whose pose-processing step raises an unexpected
(non-HTTP) exception with detail text "boom". -/
def envC2 : Env :=
  { fetchUrl := fun _ => .error "no network",
    decodeData := fun _ => .ok ⟨2, 9⟩,
    poseProcess := fun _ => .error "boom" }

/-- Request supplying neither `image_data` nor `image_url`
(the repository's own test `test_analyze_photo_missing_data`). -/
def reqC3 : PhotoAnalysisRequest :=
  { photo_id := "test-123", view := "front",
    image_data := none, image_url := none }

/-- An arbitrary environment (never consulted on the missing-input
path). -/
def envC3 : Env :=
  { fetchUrl := fun _ => .error "no network",
    decodeData := fun _ => .error "bad data",
    poseProcess := fun _ => .ok none }

/-- Request supplying only `image_data`. -/
def reqC4 : PhotoAnalysisRequest :=
  { photo_id := "p4", view := "side",
    image_data := some "QUJD", image_url := none }

/-- Environment in which the image decodes but the pose model detects
no landmarks. -/
def envC4 : Env :=
  { fetchUrl := fun _ => .error "no network",
    decodeData := fun _ => .ok ⟨4, 3⟩,
    poseProcess := fun _ => .ok none }

/-- Two concrete landmarks with visibilities 1 and 1/2. -/
def lmsC8 : List Landmark := [⟨0, 0, 0, 1⟩, ⟨1, 1, 0, 1/2⟩]

/-- Request supplying only `image_data`. -/
def reqC8 : PhotoAnalysisRequest :=
  { photo_id := "p8", view := "back",
    image_data := some "QUJD", image_url := none }

/-- Environment in which the pose model returns the two landmarks of
`lmsC8`. -/
def envC8 : Env :=
  { fetchUrl := fun _ => .error "no network",
    decodeData := fun _ => .ok ⟨2, 2⟩,
    poseProcess := fun _ => .ok (some lmsC8) }

/-- A full 29-landmark pose in which landmark `i` sits at normalized
x-coordinate `i`, so every measured pair is at distinct pixel points. -/
def lmsC5 : List Landmark :=
  (List.range 29).map (fun i => ⟨(i : ℚ), 0, 0, 1⟩)

/-- A 13-landmark pose: landmarks 11 and 12 sit at normalized
x-coordinates 19/10 and 51/10, which truncate to pixels 1 and 5 at
image width 1. -/
def lmsC10 : List Landmark :=
  List.replicate 11 lm0 ++ [⟨19/10, 0, 0, 1⟩, ⟨51/10, 0, 0, 1⟩]

/-- The exact (untruncated) scaled coordinates of a landmark: the point
the code would measure between if it did not cast to `int` first. -/
def exactPoint (lm : Landmark) (image_width image_height : ℤ) : ℝ × ℝ :=
  (((lm.x : ℝ)) * (image_width : ℝ), ((lm.y : ℝ)) * (image_height : ℝ))

/-- The single measurement entry produced for `lmsC10` at image size
1 × 1: the shoulder width between the truncated pixel points. -/
noncomputable def vC10 : ℝ :=
  calculate_distance (toRealPt (pixelPoint ⟨19/10, 0, 0, 1⟩ 1 1))
    (toRealPt (pixelPoint ⟨51/10, 0, 0, 1⟩ 1 1))

/-- The key-value pair produced for `lmsC10` at image size 1 × 1. -/
noncomputable def kvC9 : String × ℝ := ("shoulder_width", vC10)

section Lookup

theorem lookup_append (k : String) (l1 l2 : List (String × ℝ)) :
    (l1 ++ l2).lookup k =
      match l1.lookup k with
      | some v => some v
      | none => l2.lookup k := by
  induction l1 with
  | nil => simp [List.lookup]
  | cons hd tl ih =>
    cases h : k == hd.1 <;> simp [List.lookup, h, ih]

theorem lookup_distEntry_ne (k name : String) (a b : Option (ℤ × ℤ))
    (h : (k == name) = false) :
    (distEntry name a b).lookup k = none := by
  cases a <;> cases b <;> simp [distEntry, List.lookup, h]

theorem lookup_distEntry_self (name : String) (a b : Option (ℤ × ℤ)) :
    (distEntry name a b).lookup name =
      match a, b with
      | some p, some q => some (calculate_distance (toRealPt p) (toRealPt q))
      | _, _ => none := by
  cases a <;> cases b <;> simp [distEntry, List.lookup]

end Lookup

end GymSage

namespace GymSage

/-- C6: `calculate_distance` is the Euclidean norm of the difference of
its two points (stated via the Euclidean norm on `ℂ`); in particular
the distance from a point to itself is 0 and the distance from (0,0)
to (3,4) is exactly 5. -/
theorem calculate_distance_euclidean (p q : ℝ × ℝ) :
    calculate_distance p q = ‖(⟨p.1 - q.1, p.2 - q.2⟩ : ℂ)‖ ∧
    calculate_distance p p = 0 ∧
    calculate_distance (0, 0) (3, 4) = 5 := by
  refine ⟨?_, ?_, ?_⟩
  · rw [calculate_distance, Complex.norm_eq_abs, Complex.abs_apply,
      Complex.normSq_mk]
    ring_nf
  · simp [calculate_distance]
  · rw [calculate_distance]
    rw [show ((0:ℝ), (0:ℝ)).1 - ((3:ℝ), (4:ℝ)).1 = -3 by norm_num,
      show ((0:ℝ), (0:ℝ)).2 - ((3:ℝ), (4:ℝ)).2 = -4 by norm_num]
    rw [show ((-3:ℝ)) ^ 2 + (-4:ℝ) ^ 2 = 5 ^ 2 by norm_num]
    exact Real.sqrt_sq (by norm_num)

/-- C7: with no landmarks (either `None` or an empty landmark list),
`calculate_body_measurements` returns an empty measurement mapping and
`extract_keypoints` returns an empty keypoint list, for all image
dimensions. -/
theorem empty_landmarks_empty_results (w h : ℤ) :
    calculate_body_measurements none w h = [] ∧
    extract_keypoints none = [] ∧
    calculate_body_measurements (some []) w h = [] ∧
    extract_keypoints (some []) = [] := by
  refine ⟨rfl, rfl, ?_, rfl⟩
  simp [calculate_body_measurements, withRatios, addArmRatio, addLegRatio,
    baseMeasurements, distEntry, pointsOf, List.lookup]

/-- C1 counterexample: with both `image_data` (decoding to a
2-pixel-wide image) and `image_url` (fetching a 1-pixel-wide image)
supplied, the analyzed image is the one fetched from the URL (echoed
width 1), not the one decoded from `image_data` (which is analyzed only
when `image_url` is removed, echoed width 2). -/
theorem analyze_photo_data_priority_cex :
    resultWidth (analyze_photo envC1 reqC1) = some 1 ∧
    resultWidth (analyze_photo envC1 { reqC1 with image_url := none }) = some 2 := by
  exact ⟨rfl, rfl⟩

/-- C1 (amended): when `image_url` is supplied (non-empty), the remote
URL takes priority: the response is identical to that of the same
request with `image_data` removed. -/
theorem analyze_photo_url_priority (env : Env) (req : PhotoAnalysisRequest)
    (h : isTruthy req.image_url = true) :
    analyze_photo env req =
      analyze_photo env { req with image_data := none } := by
  simp [analyze_photo, h]

/-- C1 witness: the amended priority statement at the concrete
environment and request of the counterexample. -/
theorem analyze_photo_url_priority_witness :
    analyze_photo envC1 reqC1 =
      analyze_photo envC1 { reqC1 with image_data := none } :=
  analyze_photo_url_priority envC1 reqC1 rfl

/-- C2 counterexample: an unexpected internal fault with detail "boom"
after input validation yields the JSON body error message
"Analysis failed: boom", which contains the raw exception detail. -/
theorem analyze_photo_fault_detail_cex :
    resultError (analyze_photo envC2 reqC2) = some "Analysis failed: boom" ∧
    List.IsInfix "boom".toList ("Analysis failed: boom").toList := by
  exact ⟨rfl, by decide⟩

/-- C2 (amended): an unexpected (non-HTTP) internal fault after input
validation is caught and surfaced as a structured failure — no HTTP
error, `success = false`, and the message "Analysis failed: " followed
by the exception's detail text. -/
theorem analyze_photo_fault_message (env : Env) (req : PhotoAnalysisRequest)
    (img : DecodedImage) (e : String)
    (h : (isTruthy req.image_url = true ∧
          env.fetchUrl (req.image_url.getD "") = .ok img) ∨
         (isTruthy req.image_url = false ∧ isTruthy req.image_data = true ∧
          env.decodeData (req.image_data.getD "") = .ok img))
    (hfault : env.poseProcess img = .error e) :
    analyze_photo env req =
      .response { photo_id := req.photo_id, success := false,
                  analysis := none,
                  error := some ("Analysis failed: " ++ e) } := by
  rcases h with ⟨h1, h2⟩ | ⟨h1, h2, h3⟩
  · simp [analyze_photo, h1, h2, analyzeLoaded, hfault]
  · simp [analyze_photo, h1, h2, h3, analyzeLoaded, hfault]

/-- C2 witness: the amended fault-message statement at the concrete
environment whose pose step raises "boom". -/
theorem analyze_photo_fault_message_witness :
    analyze_photo envC2 reqC2 =
      .response { photo_id := "p2", success := false, analysis := none,
                  error := some ("Analysis failed: " ++ "boom") } :=
  analyze_photo_fault_message envC2 reqC2 ⟨2, 9⟩ "boom"
    (Or.inr ⟨rfl, rfl, rfl⟩) rfl

/-- C3: a request with neither `image_data` nor `image_url` yields HTTP
400 whose detail is "No image data or URL provided"; that detail does
not contain the substring "No image data provided" asserted by the
repository's own test `test_analyze_photo_missing_data` (it does
contain "No image data"). -/
theorem analyze_photo_missing_input_message :
    analyze_photo envC3 reqC3 =
      .httpError 400 "No image data or URL provided" ∧
    ¬ List.IsInfix "No image data provided".toList
        "No image data or URL provided".toList ∧
    List.IsInfix "No image data".toList
      "No image data or URL provided".toList := by
  exact ⟨rfl, by decide, by decide⟩

/-- C4: when a supplied image loads successfully but the pose model
detects no landmarks, the endpoint does not raise an HTTP error: it
returns a normal `AnalysisResult` with `success = false` and the
explanatory no-pose message. -/
theorem analyze_photo_no_pose_structured (env : Env)
    (req : PhotoAnalysisRequest) (img : DecodedImage)
    (h : (isTruthy req.image_url = true ∧
          env.fetchUrl (req.image_url.getD "") = .ok img) ∨
         (isTruthy req.image_url = false ∧ isTruthy req.image_data = true ∧
          env.decodeData (req.image_data.getD "") = .ok img))
    (hpose : env.poseProcess img = .ok none) :
    analyze_photo env req =
      .response { photo_id := req.photo_id, success := false,
                  analysis := none,
                  error := some "No pose detected in image. Please ensure the person is clearly visible." } := by
  rcases h with ⟨h1, h2⟩ | ⟨h1, h2, h3⟩
  · simp [analyze_photo, h1, h2, analyzeLoaded, hpose]
  · simp [analyze_photo, h1, h2, h3, analyzeLoaded, hpose]

/-- C4 witness: the no-pose statement at a concrete environment whose
pose model returns no landmarks. -/
theorem analyze_photo_no_pose_structured_witness :
    analyze_photo envC4 reqC4 =
      .response { photo_id := "p4", success := false, analysis := none,
                  error := some "No pose detected in image. Please ensure the person is clearly visible." } :=
  analyze_photo_no_pose_structured envC4 reqC4 ⟨4, 3⟩
    (Or.inr ⟨rfl, rfl, rfl⟩) rfl

theorem extract_keypoints_visibilities (lms : List Landmark) :
    (extract_keypoints (some lms)).map (fun kp => (kp.visibility : ℝ)) =
      lms.map (fun lm => (lm.visibility : ℝ)) := by
  show (lms.enum.map _).map _ = _
  rw [List.map_map]
  have h2 : lms.map (fun lm => (lm.visibility : ℝ)) =
      (lms.enum.map Prod.snd).map (fun lm => (lm.visibility : ℝ)) := by
    rw [List.enum_map_snd]
  rw [h2, List.map_map]
  rfl

/-- C8: on every successful analysis, the reported confidence is the
arithmetic mean of the landmarks' visibility scores: the sum of each
landmark's visibility divided by the number of landmarks. -/
theorem confidence_mean_visibility (env : Env)
    (req : PhotoAnalysisRequest) (img : DecodedImage) (lms : List Landmark)
    (h : (isTruthy req.image_url = true ∧
          env.fetchUrl (req.image_url.getD "") = .ok img) ∨
         (isTruthy req.image_url = false ∧ isTruthy req.image_data = true ∧
          env.decodeData (req.image_data.getD "") = .ok img))
    (hpose : env.poseProcess img = .ok (some lms)) :
    resultConfidence (analyze_photo env req) =
      some ((lms.map (fun lm => (lm.visibility : ℝ))).sum /
        (lms.length : ℝ)) := by
  have hmain : resultConfidence (analyzeLoaded env req.photo_id req.view img) =
      some ((lms.map (fun lm => (lm.visibility : ℝ))).sum /
        (lms.length : ℝ)) := by
    rw [analyzeLoaded]
    rw [hpose]
    show some (npMean ((extract_keypoints (some lms)).map
      (fun kp => (kp.visibility : ℝ)))) = _
    rw [extract_keypoints_visibilities, npMean, List.length_map]
  rcases h with ⟨h1, h2⟩ | ⟨h1, h2, h3⟩
  · rw [analyze_photo, if_pos h1, h2]
    exact hmain
  · rw [analyze_photo, if_neg (by simp [h1]), if_pos h2, h3]
    exact hmain

/-- C8 witness: the mean-visibility statement at a concrete two-landmark
pose with visibilities 1 and 1/2. -/
theorem confidence_mean_visibility_witness :
    resultConfidence (analyze_photo envC8 reqC8) =
      some ((lmsC8.map (fun lm => (lm.visibility : ℝ))).sum /
        (lmsC8.length : ℝ)) :=
  confidence_mean_visibility envC8 reqC8 ⟨2, 2⟩ lmsC8
    (Or.inr ⟨rfl, rfl, rfl⟩) rfl

theorem lookup_append_none {k : String} {l1 l2 : List (String × ℝ)}
    (h : l1.lookup k = none) : (l1 ++ l2).lookup k = l2.lookup k := by
  rw [lookup_append, h]

theorem lookup_append_some {k : String} {l1 l2 : List (String × ℝ)} {v : ℝ}
    (h : l1.lookup k = some v) : (l1 ++ l2).lookup k = some v := by
  rw [lookup_append, h]

theorem base_lookup_none (points : ℕ → Option (ℤ × ℤ)) (k : String)
    (h1 : (k == "shoulder_width") = false)
    (h2 : (k == "hip_width") = false)
    (h3 : (k == "left_arm_length") = false)
    (h4 : (k == "right_arm_length") = false)
    (h5 : (k == "left_leg_length") = false)
    (h6 : (k == "right_leg_length") = false)
    (h7 : (k == "torso_length") = false) :
    (baseMeasurements points).lookup k = none := by
  rw [baseMeasurements,
    lookup_append_none (lookup_distEntry_ne _ _ _ _ h1),
    lookup_append_none (lookup_distEntry_ne _ _ _ _ h2),
    lookup_append_none (lookup_distEntry_ne _ _ _ _ h3),
    lookup_append_none (lookup_distEntry_ne _ _ _ _ h4),
    lookup_append_none (lookup_distEntry_ne _ _ _ _ h5),
    lookup_append_none (lookup_distEntry_ne _ _ _ _ h6),
    lookup_distEntry_ne _ _ _ _ h7]

theorem base_lookup_shoulder (points : ℕ → Option (ℤ × ℤ)) :
    (baseMeasurements points).lookup "shoulder_width" =
      (distEntry "shoulder_width" (points 11) (points 12)).lookup "shoulder_width" := by
  rw [baseMeasurements]
  cases hE : (distEntry "shoulder_width" (points 11) (points 12)).lookup "shoulder_width" with
  | some v => rw [lookup_append_some hE]
  | none =>
    rw [lookup_append_none hE,
      lookup_append_none (lookup_distEntry_ne "shoulder_width" "hip_width" _ _ (by decide)),
      lookup_append_none (lookup_distEntry_ne "shoulder_width" "left_arm_length" _ _ (by decide)),
      lookup_append_none (lookup_distEntry_ne "shoulder_width" "right_arm_length" _ _ (by decide)),
      lookup_append_none (lookup_distEntry_ne "shoulder_width" "left_leg_length" _ _ (by decide)),
      lookup_append_none (lookup_distEntry_ne "shoulder_width" "right_leg_length" _ _ (by decide)),
      lookup_distEntry_ne "shoulder_width" "torso_length" _ _ (by decide)]

theorem base_lookup_hip (points : ℕ → Option (ℤ × ℤ)) :
    (baseMeasurements points).lookup "hip_width" =
      (distEntry "hip_width" (points 23) (points 24)).lookup "hip_width" := by
  rw [baseMeasurements,
    lookup_append_none (lookup_distEntry_ne "hip_width" "shoulder_width" _ _ (by decide))]
  cases hE : (distEntry "hip_width" (points 23) (points 24)).lookup "hip_width" with
  | some v => rw [lookup_append_some hE]
  | none =>
    rw [lookup_append_none hE,
      lookup_append_none (lookup_distEntry_ne "hip_width" "left_arm_length" _ _ (by decide)),
      lookup_append_none (lookup_distEntry_ne "hip_width" "right_arm_length" _ _ (by decide)),
      lookup_append_none (lookup_distEntry_ne "hip_width" "left_leg_length" _ _ (by decide)),
      lookup_append_none (lookup_distEntry_ne "hip_width" "right_leg_length" _ _ (by decide)),
      lookup_distEntry_ne "hip_width" "torso_length" _ _ (by decide)]

theorem base_lookup_left_arm (points : ℕ → Option (ℤ × ℤ)) :
    (baseMeasurements points).lookup "left_arm_length" =
      (distEntry "left_arm_length" (points 11) (points 15)).lookup "left_arm_length" := by
  rw [baseMeasurements,
    lookup_append_none (lookup_distEntry_ne "left_arm_length" "shoulder_width" _ _ (by decide)),
    lookup_append_none (lookup_distEntry_ne "left_arm_length" "hip_width" _ _ (by decide))]
  cases hE : (distEntry "left_arm_length" (points 11) (points 15)).lookup "left_arm_length" with
  | some v => rw [lookup_append_some hE]
  | none =>
    rw [lookup_append_none hE,
      lookup_append_none (lookup_distEntry_ne "left_arm_length" "right_arm_length" _ _ (by decide)),
      lookup_append_none (lookup_distEntry_ne "left_arm_length" "left_leg_length" _ _ (by decide)),
      lookup_append_none (lookup_distEntry_ne "left_arm_length" "right_leg_length" _ _ (by decide)),
      lookup_distEntry_ne "left_arm_length" "torso_length" _ _ (by decide)]

theorem base_lookup_right_arm (points : ℕ → Option (ℤ × ℤ)) :
    (baseMeasurements points).lookup "right_arm_length" =
      (distEntry "right_arm_length" (points 12) (points 16)).lookup "right_arm_length" := by
  rw [baseMeasurements,
    lookup_append_none (lookup_distEntry_ne "right_arm_length" "shoulder_width" _ _ (by decide)),
    lookup_append_none (lookup_distEntry_ne "right_arm_length" "hip_width" _ _ (by decide)),
    lookup_append_none (lookup_distEntry_ne "right_arm_length" "left_arm_length" _ _ (by decide))]
  cases hE : (distEntry "right_arm_length" (points 12) (points 16)).lookup "right_arm_length" with
  | some v => rw [lookup_append_some hE]
  | none =>
    rw [lookup_append_none hE,
      lookup_append_none (lookup_distEntry_ne "right_arm_length" "left_leg_length" _ _ (by decide)),
      lookup_append_none (lookup_distEntry_ne "right_arm_length" "right_leg_length" _ _ (by decide)),
      lookup_distEntry_ne "right_arm_length" "torso_length" _ _ (by decide)]

theorem base_lookup_left_leg (points : ℕ → Option (ℤ × ℤ)) :
    (baseMeasurements points).lookup "left_leg_length" =
      (distEntry "left_leg_length" (points 23) (points 27)).lookup "left_leg_length" := by
  rw [baseMeasurements,
    lookup_append_none (lookup_distEntry_ne "left_leg_length" "shoulder_width" _ _ (by decide)),
    lookup_append_none (lookup_distEntry_ne "left_leg_length" "hip_width" _ _ (by decide)),
    lookup_append_none (lookup_distEntry_ne "left_leg_length" "left_arm_length" _ _ (by decide)),
    lookup_append_none (lookup_distEntry_ne "left_leg_length" "right_arm_length" _ _ (by decide))]
  cases hE : (distEntry "left_leg_length" (points 23) (points 27)).lookup "left_leg_length" with
  | some v => rw [lookup_append_some hE]
  | none =>
    rw [lookup_append_none hE,
      lookup_append_none (lookup_distEntry_ne "left_leg_length" "right_leg_length" _ _ (by decide)),
      lookup_distEntry_ne "left_leg_length" "torso_length" _ _ (by decide)]

theorem base_lookup_right_leg (points : ℕ → Option (ℤ × ℤ)) :
    (baseMeasurements points).lookup "right_leg_length" =
      (distEntry "right_leg_length" (points 24) (points 28)).lookup "right_leg_length" := by
  rw [baseMeasurements,
    lookup_append_none (lookup_distEntry_ne "right_leg_length" "shoulder_width" _ _ (by decide)),
    lookup_append_none (lookup_distEntry_ne "right_leg_length" "hip_width" _ _ (by decide)),
    lookup_append_none (lookup_distEntry_ne "right_leg_length" "left_arm_length" _ _ (by decide)),
    lookup_append_none (lookup_distEntry_ne "right_leg_length" "right_arm_length" _ _ (by decide)),
    lookup_append_none (lookup_distEntry_ne "right_leg_length" "left_leg_length" _ _ (by decide))]
  cases hE : (distEntry "right_leg_length" (points 24) (points 28)).lookup "right_leg_length" with
  | some v => rw [lookup_append_some hE]
  | none =>
    rw [lookup_append_none hE,
      lookup_distEntry_ne "right_leg_length" "torso_length" _ _ (by decide)]

theorem base_lookup_torso (points : ℕ → Option (ℤ × ℤ)) :
    (baseMeasurements points).lookup "torso_length" =
      (distEntry "torso_length" (points 11) (points 23)).lookup "torso_length" := by
  rw [baseMeasurements,
    lookup_append_none (lookup_distEntry_ne "torso_length" "shoulder_width" _ _ (by decide)),
    lookup_append_none (lookup_distEntry_ne "torso_length" "hip_width" _ _ (by decide)),
    lookup_append_none (lookup_distEntry_ne "torso_length" "left_arm_length" _ _ (by decide)),
    lookup_append_none (lookup_distEntry_ne "torso_length" "right_arm_length" _ _ (by decide)),
    lookup_append_none (lookup_distEntry_ne "torso_length" "left_leg_length" _ _ (by decide)),
    lookup_append_none (lookup_distEntry_ne "torso_length" "right_leg_length" _ _ (by decide))]

theorem addArmRatio_lookup_ne (m : List (String × ℝ)) (k : String)
    (hk : (k == "arm_symmetry_ratio") = false) :
    (addArmRatio m).lookup k = m.lookup k := by
  rw [addArmRatio]
  cases hla : m.lookup "left_arm_length" with
  | none => rfl
  | some l =>
    cases hra : m.lookup "right_arm_length" with
    | none => rfl
    | some r =>
      cases hk2 : m.lookup k with
      | some v => rw [lookup_append_some hk2]
      | none => rw [lookup_append_none hk2]; simp [List.lookup, hk]

theorem addArmRatio_lookup_self (m : List (String × ℝ))
    (hnone : m.lookup "arm_symmetry_ratio" = none) :
    (addArmRatio m).lookup "arm_symmetry_ratio" =
      match m.lookup "left_arm_length", m.lookup "right_arm_length" with
      | some l, some r => some (l / r)
      | _, _ => none := by
  rw [addArmRatio]
  cases hla : m.lookup "left_arm_length" with
  | none => exact hnone
  | some l =>
    cases hra : m.lookup "right_arm_length" with
    | none => exact hnone
    | some r =>
      rw [lookup_append_none hnone]
      simp [List.lookup]

theorem addLegRatio_lookup_ne (m : List (String × ℝ)) (k : String)
    (hk : (k == "leg_symmetry_ratio") = false) :
    (addLegRatio m).lookup k = m.lookup k := by
  rw [addLegRatio]
  cases hll : m.lookup "left_leg_length" with
  | none => rfl
  | some l =>
    cases hrl : m.lookup "right_leg_length" with
    | none => rfl
    | some r =>
      cases hk2 : m.lookup k with
      | some v => rw [lookup_append_some hk2]
      | none => rw [lookup_append_none hk2]; simp [List.lookup, hk]

theorem addLegRatio_lookup_self (m : List (String × ℝ))
    (hnone : m.lookup "leg_symmetry_ratio" = none) :
    (addLegRatio m).lookup "leg_symmetry_ratio" =
      match m.lookup "left_leg_length", m.lookup "right_leg_length" with
      | some l, some r => some (l / r)
      | _, _ => none := by
  rw [addLegRatio]
  cases hll : m.lookup "left_leg_length" with
  | none => exact hnone
  | some l =>
    cases hrl : m.lookup "right_leg_length" with
    | none => exact hnone
    | some r =>
      rw [lookup_append_none hnone]
      simp [List.lookup]

theorem withRatios_lookup_dist (m : List (String × ℝ)) (k : String)
    (h1 : (k == "arm_symmetry_ratio") = false)
    (h2 : (k == "leg_symmetry_ratio") = false) :
    (withRatios m).lookup k = m.lookup k := by
  rw [withRatios, addLegRatio_lookup_ne _ _ h2, addArmRatio_lookup_ne _ _ h1]

theorem withRatios_lookup_arm (m : List (String × ℝ))
    (hA : m.lookup "arm_symmetry_ratio" = none) :
    (withRatios m).lookup "arm_symmetry_ratio" =
      match m.lookup "left_arm_length", m.lookup "right_arm_length" with
      | some l, some r => some (l / r)
      | _, _ => none := by
  rw [withRatios, addLegRatio_lookup_ne _ _ (by decide),
    addArmRatio_lookup_self _ hA]

theorem withRatios_lookup_leg (m : List (String × ℝ))
    (hL : m.lookup "leg_symmetry_ratio" = none) :
    (withRatios m).lookup "leg_symmetry_ratio" =
      match m.lookup "left_leg_length", m.lookup "right_leg_length" with
      | some l, some r => some (l / r)
      | _, _ => none := by
  rw [withRatios]
  have hL2 : (addArmRatio m).lookup "leg_symmetry_ratio" = none := by
    rw [addArmRatio_lookup_ne _ _ (by decide)]; exact hL
  rw [addLegRatio_lookup_self _ hL2,
    addArmRatio_lookup_ne _ _ (by decide), addArmRatio_lookup_ne _ _ (by decide)]

/-- C5: a symmetry-ratio key is present in the measurement mapping if
and only if both corresponding one-sided measurements are present; when
present its value is the left measurement divided by the right one, and
when either side is missing the ratio key is simply omitted. -/
theorem symmetry_ratio_iff_both_sides (landmarks : Option (List Landmark))
    (w h : ℤ) (m : List (String × ℝ))
    (hm : m = calculate_body_measurements landmarks w h) :
    ((m.lookup "arm_symmetry_ratio").isSome ↔
      ((m.lookup "left_arm_length").isSome ∧
       (m.lookup "right_arm_length").isSome)) ∧
    (∀ l r v, m.lookup "left_arm_length" = some l →
      m.lookup "right_arm_length" = some r →
      m.lookup "arm_symmetry_ratio" = some v → v = l / r) ∧
    ((m.lookup "leg_symmetry_ratio").isSome ↔
      ((m.lookup "left_leg_length").isSome ∧
       (m.lookup "right_leg_length").isSome)) ∧
    (∀ l r v, m.lookup "left_leg_length" = some l →
      m.lookup "right_leg_length" = some r →
      m.lookup "leg_symmetry_ratio" = some v → v = l / r) := by
  cases landmarks with
  | none =>
    subst hm
    simp [calculate_body_measurements, List.lookup]
  | some lms =>
    subst hm
    simp only [calculate_body_measurements]
    have hA : (baseMeasurements (pointsOf lms w h)).lookup "arm_symmetry_ratio" = none :=
      base_lookup_none _ _ (by decide) (by decide) (by decide) (by decide)
        (by decide) (by decide) (by decide)
    have hL : (baseMeasurements (pointsOf lms w h)).lookup "leg_symmetry_ratio" = none :=
      base_lookup_none _ _ (by decide) (by decide) (by decide) (by decide)
        (by decide) (by decide) (by decide)
    rw [withRatios_lookup_arm _ hA, withRatios_lookup_leg _ hL,
      withRatios_lookup_dist _ "left_arm_length" (by decide) (by decide),
      withRatios_lookup_dist _ "right_arm_length" (by decide) (by decide),
      withRatios_lookup_dist _ "left_leg_length" (by decide) (by decide),
      withRatios_lookup_dist _ "right_leg_length" (by decide) (by decide)]
    refine ⟨?_, ?_, ?_, ?_⟩
    · cases (baseMeasurements (pointsOf lms w h)).lookup "left_arm_length" <;>
        cases (baseMeasurements (pointsOf lms w h)).lookup "right_arm_length" <;>
        simp
    · intro l r v h1 h2 h3
      rw [h1, h2] at h3
      exact (Option.some_inj.1 h3).symm
    · cases (baseMeasurements (pointsOf lms w h)).lookup "left_leg_length" <;>
        cases (baseMeasurements (pointsOf lms w h)).lookup "right_leg_length" <;>
        simp
    · intro l r v h1 h2 h3
      rw [h1, h2] at h3
      exact (Option.some_inj.1 h3).symm

/-- C5 witness: at a concrete full 29-landmark pose both arm lengths are
present, so the arm symmetry ratio is present. -/
theorem symmetry_ratio_iff_both_sides_witness :
    ((calculate_body_measurements (some lmsC5) 1 1).lookup "arm_symmetry_ratio").isSome = true := by
  have hiff := (symmetry_ratio_iff_both_sides (some lmsC5) 1 1
    (calculate_body_measurements (some lmsC5) 1 1) rfl).1
  exact hiff.2 ⟨by decide, by decide⟩

theorem distEntry_mem (name : String) (a b : Option (ℤ × ℤ))
    (kv : String × ℝ) (hkv : kv ∈ distEntry name a b) : kv.1 = name := by
  cases a <;> cases b <;> simp_all [distEntry]

theorem baseMeasurements_mem (points : ℕ → Option (ℤ × ℤ))
    (kv : String × ℝ) (hkv : kv ∈ baseMeasurements points) :
    kv.1 ∈ measurementVocab := by
  rw [baseMeasurements] at hkv
  simp only [List.mem_append] at hkv
  rcases hkv with hkv | hkv | hkv | hkv | hkv | hkv | hkv <;>
    rw [distEntry_mem _ _ _ _ hkv] <;> decide

theorem addArmRatio_mem (m : List (String × ℝ)) (kv : String × ℝ)
    (hkv : kv ∈ addArmRatio m) : kv ∈ m ∨ kv.1 = "arm_symmetry_ratio" := by
  rw [addArmRatio] at hkv
  cases hla : m.lookup "left_arm_length" with
  | none => rw [hla] at hkv; exact Or.inl hkv
  | some l =>
    cases hra : m.lookup "right_arm_length" with
    | none => rw [hla, hra] at hkv; exact Or.inl hkv
    | some r =>
      rw [hla, hra] at hkv
      rcases List.mem_append.1 hkv with hkv | hkv
      · exact Or.inl hkv
      · right
        rw [List.mem_singleton.1 hkv]

theorem addLegRatio_mem (m : List (String × ℝ)) (kv : String × ℝ)
    (hkv : kv ∈ addLegRatio m) : kv ∈ m ∨ kv.1 = "leg_symmetry_ratio" := by
  rw [addLegRatio] at hkv
  cases hll : m.lookup "left_leg_length" with
  | none => rw [hll] at hkv; exact Or.inl hkv
  | some l =>
    cases hrl : m.lookup "right_leg_length" with
    | none => rw [hll, hrl] at hkv; exact Or.inl hkv
    | some r =>
      rw [hll, hrl] at hkv
      rcases List.mem_append.1 hkv with hkv | hkv
      · exact Or.inl hkv
      · right
        rw [List.mem_singleton.1 hkv]

/-- C9: every key of the mapping returned by
`calculate_body_measurements` is drawn from the fixed vocabulary of
nine measurement names. -/
theorem measurement_keys_in_vocab (landmarks : Option (List Landmark))
    (w h : ℤ) (kv : String × ℝ)
    (hkv : kv ∈ calculate_body_measurements landmarks w h) :
    kv.1 ∈ measurementVocab := by
  cases landmarks with
  | none => simp [calculate_body_measurements] at hkv
  | some lms =>
    simp only [calculate_body_measurements, withRatios] at hkv
    rcases addLegRatio_mem _ _ hkv with h2 | h2
    · rcases addArmRatio_mem _ _ h2 with h3 | h3
      · exact baseMeasurements_mem _ _ h3
      · rw [h3]; decide
    · rw [h2]; decide

/-- C9 witness: the key of the concrete shoulder-width entry produced
for `lmsC10` is in the vocabulary. -/
theorem measurement_keys_in_vocab_witness : kvC9.1 ∈ measurementVocab :=
  measurement_keys_in_vocab (some lmsC10) 1 1 kvC9
    (by exact List.mem_singleton.2 rfl)

theorem pointsOf_eq_some (lms : List Landmark) (w h : ℤ) (i : ℕ)
    (p : ℤ × ℤ) (hp : pointsOf lms w h i = some p) :
    ∃ lm, lms.get? i = some lm ∧ p = pixelPoint lm w h := by
  simp only [pointsOf] at hp
  cases hg : lms.get? i with
  | none => rw [hg] at hp; simp at hp
  | some lm =>
    rw [hg] at hp
    refine ⟨lm, rfl, ?_⟩
    simpa using hp.symm

theorem base_dist_value (points : ℕ → Option (ℤ × ℤ)) (name : String)
    (i j : ℕ) (v : ℝ)
    (hbl : (baseMeasurements points).lookup name =
      (distEntry name (points i) (points j)).lookup name)
    (hv : (baseMeasurements points).lookup name = some v) :
    ∃ p q, points i = some p ∧ points j = some q ∧
      v = calculate_distance (toRealPt p) (toRealPt q) := by
  rw [hbl, lookup_distEntry_self] at hv
  cases hi : points i with
  | none =>
    cases hj : points j <;> rw [hi, hj] at hv <;> simp at hv
  | some p =>
    cases hj : points j with
    | none => rw [hi, hj] at hv; simp at hv
    | some q =>
      rw [hi, hj] at hv
      exact ⟨p, q, rfl, rfl, (Option.some_inj.1 hv).symm⟩

theorem points_to_landmarks (lms : List Landmark) (w h : ℤ) (i j : ℕ)
    (v : ℝ)
    (hex : ∃ p q, pointsOf lms w h i = some p ∧ pointsOf lms w h j = some q ∧
      v = calculate_distance (toRealPt p) (toRealPt q)) :
    ∃ lmi lmj, lms.get? i = some lmi ∧ lms.get? j = some lmj ∧
      v = calculate_distance (toRealPt (pixelPoint lmi w h))
            (toRealPt (pixelPoint lmj w h)) := by
  obtain ⟨p, q, hp, hq, hv⟩ := hex
  obtain ⟨lmi, hgi, hpi⟩ := pointsOf_eq_some lms w h i p hp
  obtain ⟨lmj, hgj, hpj⟩ := pointsOf_eq_some lms w h j q hq
  exact ⟨lmi, lmj, hgi, hgj, by rw [hv, hpi, hpj]⟩

theorem sqrt_eval {x c : ℝ} (hc : 0 ≤ c) (hx : x = c ^ 2) :
    Real.sqrt x = c := by
  rw [hx]; exact Real.sqrt_sq hc

/-- C10: every reported distance is the Euclidean distance between the
truncated integer pixel points `int(landmark.x * image_width)`,
`int(landmark.y * image_height)` — where `int` truncates toward zero
(it is the floor on nonnegative input and odd under negation) — and
not between the exact scaled coordinates: at the concrete pose
`lmsC10` the reported shoulder width is 4 while the exact-coordinate
distance is 16/5. -/
theorem measurements_use_truncated_pixels (lms : List Landmark) (w h : ℤ)
    (name : String) (i j : ℕ) (v : ℝ)
    (hpair : (name, i, j) ∈ measurementPairs)
    (hv : (calculate_body_measurements (some lms) w h).lookup name = some v) :
    (∃ lmi lmj, lms.get? i = some lmi ∧ lms.get? j = some lmj ∧
      v = calculate_distance (toRealPt (pixelPoint lmi w h))
            (toRealPt (pixelPoint lmj w h))) ∧
    (∀ q : ℚ, 0 ≤ q → truncToInt q = ⌊q⌋) ∧
    (∀ q : ℚ, truncToInt (-q) = - truncToInt q) ∧
    vC10 = 4 ∧
    calculate_distance (exactPoint ⟨19/10, 0, 0, 1⟩ 1 1)
      (exactPoint ⟨51/10, 0, 0, 1⟩ 1 1) = 16/5 ∧
    (4 : ℝ) ≠ 16/5 := by
  have hp1 : pixelPoint (⟨19/10, 0, 0, 1⟩ : Landmark) 1 1 = (1, 0) := by
    norm_num [pixelPoint, truncToInt]
  have hp2 : pixelPoint (⟨51/10, 0, 0, 1⟩ : Landmark) 1 1 = (5, 0) := by
    norm_num [pixelPoint, truncToInt]
  have htr1 : ∀ q : ℚ, 0 ≤ q → truncToInt q = ⌊q⌋ := by
    intro q hq; rw [truncToInt, if_pos hq]
  have htr2 : ∀ q : ℚ, truncToInt (-q) = - truncToInt q := by
    intro q
    rcases lt_trichotomy q 0 with hq | hq | hq
    · rw [truncToInt, truncToInt, if_pos (by linarith),
        if_neg (not_le.2 hq), Int.floor_neg]
    · subst hq; simp [truncToInt]
    · rw [truncToInt, truncToInt, if_neg (not_le.2 (by linarith)),
        if_pos hq.le, Int.ceil_neg]
  have h4 : vC10 = 4 := by
    rw [vC10, hp1, hp2]
    apply sqrt_eval (by norm_num)
    norm_num [toRealPt]
  have h5 : calculate_distance (exactPoint ⟨19/10, 0, 0, 1⟩ 1 1)
      (exactPoint ⟨51/10, 0, 0, 1⟩ 1 1) = 16/5 := by
    apply sqrt_eval (by norm_num)
    norm_num [exactPoint]
  refine ⟨?_, htr1, htr2, h4, h5, by norm_num⟩
  simp only [calculate_body_measurements] at hv
  simp only [measurementPairs, List.mem_cons, List.not_mem_nil, or_false,
    Prod.mk.injEq] at hpair
  rcases hpair with hc | hc | hc | hc | hc | hc | hc
  · obtain ⟨rfl, rfl, rfl⟩ := hc
    rw [withRatios_lookup_dist _ _ (by decide) (by decide)] at hv
    exact points_to_landmarks lms w h 11 12 v
      (base_dist_value _ _ 11 12 v (base_lookup_shoulder _) hv)
  · obtain ⟨rfl, rfl, rfl⟩ := hc
    rw [withRatios_lookup_dist _ _ (by decide) (by decide)] at hv
    exact points_to_landmarks lms w h 23 24 v
      (base_dist_value _ _ 23 24 v (base_lookup_hip _) hv)
  · obtain ⟨rfl, rfl, rfl⟩ := hc
    rw [withRatios_lookup_dist _ _ (by decide) (by decide)] at hv
    exact points_to_landmarks lms w h 11 15 v
      (base_dist_value _ _ 11 15 v (base_lookup_left_arm _) hv)
  · obtain ⟨rfl, rfl, rfl⟩ := hc
    rw [withRatios_lookup_dist _ _ (by decide) (by decide)] at hv
    exact points_to_landmarks lms w h 12 16 v
      (base_dist_value _ _ 12 16 v (base_lookup_right_arm _) hv)
  · obtain ⟨rfl, rfl, rfl⟩ := hc
    rw [withRatios_lookup_dist _ _ (by decide) (by decide)] at hv
    exact points_to_landmarks lms w h 23 27 v
      (base_dist_value _ _ 23 27 v (base_lookup_left_leg _) hv)
  · obtain ⟨rfl, rfl, rfl⟩ := hc
    rw [withRatios_lookup_dist _ _ (by decide) (by decide)] at hv
    exact points_to_landmarks lms w h 24 28 v
      (base_dist_value _ _ 24 28 v (base_lookup_right_leg _) hv)
  · obtain ⟨rfl, rfl, rfl⟩ := hc
    rw [withRatios_lookup_dist _ _ (by decide) (by decide)] at hv
    exact points_to_landmarks lms w h 11 23 v
      (base_dist_value _ _ 11 23 v (base_lookup_torso _) hv)

/-- C10 witness: the truncated-pixel statement at the concrete pose
`lmsC10`, image size 1 × 1, for the shoulder-width entry. -/
theorem measurements_use_truncated_pixels_witness :
    (∃ lmi lmj, lmsC10.get? 11 = some lmi ∧ lmsC10.get? 12 = some lmj ∧
      vC10 = calculate_distance (toRealPt (pixelPoint lmi 1 1))
        (toRealPt (pixelPoint lmj 1 1))) ∧
    (∀ q : ℚ, 0 ≤ q → truncToInt q = ⌊q⌋) ∧
    (∀ q : ℚ, truncToInt (-q) = - truncToInt q) ∧
    vC10 = 4 ∧
    calculate_distance (exactPoint ⟨19/10, 0, 0, 1⟩ 1 1)
      (exactPoint ⟨51/10, 0, 0, 1⟩ 1 1) = 16/5 ∧
    (4 : ℝ) ≠ 16/5 :=
  measurements_use_truncated_pixels lmsC10 1 1 "shoulder_width" 11 12 vC10
    (by decide) rfl

end GymSage
